import Mathlib

/-!
Shallow embedding of the Karabo-Pipeline dask partition / dispatch / campaign
code (`karabo/simulation/interferometer.py`), of the sky-model mutation code
(`karabo/simulation/sky_model.py`) and of the performance-report writer
(`karabo/performance_test/time_karabo_parallelization_by_channel.py`),
together with theorems settling the frozen claims about the spec.
-/

namespace Karabo

/-- One OSKAR sky-array row.  Only column 6 (the frequency used as the rank
key of the partitioner) is interpreted by the code under study; the other
columns are abstracted into an opaque `payload` that keeps rows
distinguishable.  Frequencies are modelled as integers: the partition code
uses only ordering and equality of the frequency values. -/
structure SourceRow where
  freq : Int
  payload : Nat
deriving DecidableEq, Repr

instance : Inhabited SourceRow := ⟨⟨0, 0⟩⟩

/-- Row comparison by the frequency column: the sort key of
`array_sky[array_sky[:, 6].argsort()]` (interferometer.py line 268). -/
def rowLE (a b : SourceRow) : Prop := a.freq ≤ b.freq

instance : DecidableRel rowLE := fun a b => inferInstanceAs (Decidable (a.freq ≤ b.freq))

instance : IsTotal SourceRow rowLE := ⟨fun a b => Int.le_total a.freq b.freq⟩

instance : IsTrans SourceRow rowLE := ⟨fun _ _ _ h1 h2 => Int.le_trans h1 h2⟩

/-- Sort the sky array ascending by the frequency column
(`array_sky[array_sky[:, 6].argsort()]`, interferometer.py line 268). -/
def sortByFreq (l : List SourceRow) : List SourceRow := List.insertionSort rowLE l

/-- `pandas.Series.rank(method="dense")` of value `x` over the column `fs`:
the number of distinct values of the column that are `≤ x`
(interferometer.py line 277). -/
def denseRankOf (fs : List Int) (x : Int) : Nat :=
  ((fs.filter (fun v => v ≤ x)).dedup).length

/-- The rank column: dense rank of every entry of `fs` (line 277). -/
def denseRanks (fs : List Int) : List Nat :=
  fs.map (denseRankOf fs)

/-- `np.ceil(R / N).astype(int)` for natural `R`, `N` (line 284).  For
`N = 0` the Python value is unused garbage (the target list below is empty
in that case), so the value here is irrelevant then as well. -/
def npCeilDiv (R N : Nat) : Nat := (R + N - 1) / N

/-- The rank boundaries looked up by the split loop: the code builds
`split_ranks = [0 + spacing * i for i in range(N)]` (line 285) and then
looks up `split_ranks[i + 1]` for `i in range(len(split_ranks) - 1)`
(lines 289-294), i.e. the targets `spacing * 1, …, spacing * (N - 1)`. -/
def splitTargets (spacing N : Nat) : List Nat :=
  (List.range (N - 1)).map (fun i => spacing * (i + 1))

/-- `frequencies[frequencies["rank"] == t].index[0]` for each target `t`
(lines 289-294): the first row index whose dense rank equals the target.
`none` models the `IndexError` raised by `.index[0]` on an empty selection
(no row carries the target rank). -/
def findSplitIdxs (ranks : List Nat) : List Nat → Option (List Nat)
  | [] => some []
  | t :: ts =>
    match ranks.findIdx? (fun r => r = t), findSplitIdxs ranks ts with
    | some j, some js => some (j :: js)
    | _, _ => none

/-- `np.split(arr, idxs)` (line 297): successive Python slices
`arr[0:i₁], arr[i₁:i₂], …, arr[iₖ:]` with clamping slice semantics. -/
def npSplitGo (l : List SourceRow) (prev : Nat) : List Nat → List (List SourceRow)
  | [] => [l.drop prev]
  | i :: rest => ((l.drop prev).take (i - prev)) :: npSplitGo l i rest

/-- `np.split(arr, split_idxs)` (line 297). -/
def npSplit (l : List SourceRow) (idxs : List Nat) : List (List SourceRow) :=
  npSplitGo l 0 idxs

/-- The rank column of the frequency-sorted sky array
(interferometer.py lines 268-277). -/
def rowRanks (rows : List SourceRow) : List Nat :=
  denseRanks ((sortByFreq rows).map (fun r => r.freq))

/-- One pass of the frequency-rank split body (interferometer.py lines
266-297) at a given split count `N`: sort by frequency, compute dense ranks,
take `R` as the last entry of the rank column (`iloc[-1]`, `none` on the
empty collection), compute `spacing = ceil(R / N)`, look up the first row
index of every boundary rank, and split the sorted array there.  `none`
models the `IndexError` paths of the Python code. -/
def freqSplit (rows : List SourceRow) (N : Nat) : Option (List (List SourceRow)) :=
  match (rowRanks rows).getLast? with
  | none => none
  | some R =>
    match findSplitIdxs (rowRanks rows) (splitTargets (npCeilDiv R N) N) with
    | none => none
    | some idxs => some (npSplit (sortByFreq rows) idxs)

/-- The GPU environment probed by the split loop:
`is_cuda_available()` and `get_gpu_memory()` (interferometer.py line 301-302). -/
structure GpuEnv where
  cudaAvailable : Bool
  gpuMemory : ℚ

/-- Python `int(b)` for a `bool` (`int(True) = 1`, `int(False) = 0`);
also `int(np.ceil(b))`, since `np.ceil` is the identity on `0`/`1`. -/
def pyBoolToInt (b : Bool) : Nat := if b then 1 else 0

/-- `split_array_sky[0].nbytes / 1024**2` (line 306): the byte size of the
first chunk (rows times the fixed row width) under Python true division. -/
def firstChunkMB (chunks : List (List SourceRow)) (rowBytes : Nat) : ℚ :=
  (((chunks.headD []).length * rowBytes : Nat) : ℚ) / (1024 ^ 2)

/-- The memory-budget check of the split loop body (lines 301-315).
Returns `(continue?, increment)`: whether the `while True` loop runs another
iteration, and by how much `N` grows if so.  Faithful to the source:
`ratio_vram_usage` is the *Boolean* `split_array_sky[0].nbytes / 1024**2 >
max_vram_usage_gpu` (line 305-307), the loop continues only when
`ratio_vram_usage > 1` under Python bool-as-int semantics (line 310), and
the increment is `int(np.ceil(ratio_vram_usage))` (line 311).
`maxVramCfg` is `self.max_vram_usage_gpu`, truthy iff nonzero. -/
def escalationCheck (env : GpuEnv) (maxVramCfg : ℚ) (firstMB : ℚ) : Bool × Nat :=
  if env.cudaAvailable && !(maxVramCfg = 0 : Bool) then
    let maxVram := maxVramCfg * env.gpuMemory
    let ratioVramUsage : Bool := firstMB > maxVram
    if pyBoolToInt ratioVramUsage > 1 then (true, pyBoolToInt ratioVramUsage)
    else (false, 0)
  else (false, 0)

/-- The `while True` split loop (interferometer.py lines 282-315): split at
the current `N`, then either break or escalate `N` and redo the whole split
from scratch.  `fuel` bounds the recursion; `none` is returned on fuel
exhaustion or on an `IndexError` inside the split body.  The result pairs
the emitted chunks with the final split count. -/
def splitEscalationLoop (env : GpuEnv) (maxVramCfg : ℚ) (rowBytes : Nat)
    (rows : List SourceRow) : Nat → Nat → Option (List (List SourceRow) × Nat)
  | 0, _ => none
  | fuel + 1, N =>
    match freqSplit rows N with
    | none => none
    | some chunks =>
      let c := escalationCheck env maxVramCfg (firstChunkMB chunks rowBytes)
      if c.1 then splitEscalationLoop env maxVramCfg rowBytes rows fuel (N + c.2)
      else some (chunks, N)

/-- `np.take(array_sky, self.split_idxs_per_group, axis=0)`
(interferometer.py line 265): chunk `g` holds the rows of the (unsorted)
collection at the indices of group `g`.  `none` models the error numpy
raises on a ragged group list (it cannot be cast to an index array) or on
an out-of-bounds index (`mode="raise"`, the default). -/
def npTake (rows : List SourceRow) (idxss : List (List Nat)) :
    Option (List (List SourceRow)) :=
  if idxss.all (fun g => g.length = (idxss.headD []).length) then
    idxss.mapM (fun g => g.mapM (fun i => rows[i]?))
  else none

/-- The split dispatch of `__setup_run_simulation_oskar` (lines 260-321):
a truthy `split_idxs_per_group` (`None` and `[]` are falsy, line 264) is
used verbatim via `np.take`; otherwise `split_sky_for_dask_by ==
"frequency"` runs the escalating frequency-rank split; any other value
raises `ValueError` (lines 317-321), modelled as `none`. -/
def chooseSplit (rows : List SourceRow) (splitIdxsPerGroup : Option (List (List Nat)))
    (splitBy : String) (env : GpuEnv) (maxVramCfg : ℚ) (rowBytes : Nat)
    (N fuel : Nat) : Option (List (List SourceRow)) :=
  match splitIdxsPerGroup with
  | some (g :: gs) => npTake rows (g :: gs)
  | _ =>
    if splitBy = "frequency" then
      (splitEscalationLoop env maxVramCfg rowBytes rows fuel N).map (fun p => p.1)
    else none

/-! ### Dispatch-and-gather (interferometer.py lines 327-348)

The dask `client` is the external distributed executor of spec section 4.2;
its contract there is that `submit` schedules one task per call and `gather`
blocks, returns the results in the order of the submitted futures list, and
raises the error of a failed task instead of returning anything.  A remote
task is modelled as a function from its work item to `Except` (the item
carries the chunk and the merged settings; line 337-344 submits one task per
chunk, in chunk order). -/

/-- Outcome of `__setup_run_simulation_oskar`'s dask branch: the returned
value (`Visibility(results[0])`, line 348), a propagated task failure from
`client.gather` (line 345), or the `IndexError` of `results[0]` on an empty
result list. -/
inductive DaskOutcome (ε ρ : Type) where
  | ok (r : ρ)
  | taskFailed (e : ε)
  | indexError
deriving DecidableEq, Repr

/-- `client.gather(futures)` under the executor contract: results in the
order of the futures list, or the error of a failed task; no partial
result list is ever produced. -/
def clientGather {ι ε ρ : Type} (exec : ι → Except ε ρ) :
    List ι → Except ε (List ρ)
  | [] => Except.ok []
  | x :: xs =>
    match exec x with
    | Except.error e => Except.error e
    | Except.ok r =>
      match clientGather exec xs with
      | Except.error e => Except.error e
      | Except.ok rs => Except.ok (r :: rs)

/-- The dask branch of `__setup_run_simulation_oskar` (lines 327-348):
submit one task per work item in item order (lines 328-344), gather
(line 345), and return only the FIRST result (`return Visibility(results[0])`,
line 348 — the code's own TODO records that combining is not implemented). -/
def setupRunDask {ι ε ρ : Type} (exec : ι → Except ε ρ) (items : List ι) :
    DaskOutcome ε ρ :=
  match clientGather exec items with
  | Except.error e => DaskOutcome.taskFailed e
  | Except.ok results =>
    match results.head? with
    | some r => DaskOutcome.ok r
    | none => DaskOutcome.indexError

/-! ### The multi-day campaign loop `__run_simulation_long`
(interferometer.py lines 385-445)

The loop mutates three pieces of shared state per day: the shared telescope
directory (purged of `.bin` beam binaries, then rewritten by the external
beam-fitting collaborator), the simulation object's `vis_path` attribute,
and a fresh deep copy of the base observation whose `start_date_and_time`
is set to the day's calendar date.  Observation objects live in an explicit
store so that `deepcopy` (a fresh, unaliased cell) and attribute assignment
(an update of one cell) keep their Python semantics. -/

/-- The fields of an `Observation` the campaign loop touches:
`start_date_and_time` plus an opaque remainder copied verbatim by
`deepcopy`. -/
structure Obs where
  startDate : Nat
  payload : Nat
deriving DecidableEq, Repr

/-- A store of observation objects: references are naturals, `fresh` is the
next unused reference. -/
structure Heap where
  objs : Nat → Obs
  fresh : Nat

/-- `copy.deepcopy(observation)` (line 437): allocate a fresh cell holding
the same field values, returning the new store and the new reference. -/
def deepcopyObs (h : Heap) (r : Nat) : Heap × Nat :=
  (⟨Function.update h.objs h.fresh (h.objs r), h.fresh + 1⟩, h.fresh)

/-- `observation_run.start_date_and_time = current_date` (line 438):
update one cell's date field in place. -/
def setStartDate (h : Heap) (r : Nat) (d : Nat) : Heap :=
  ⟨Function.update h.objs r { h.objs r with startDate := d }, h.fresh⟩

/-- Drop every `.bin` file from the shared telescope directory (lines
417-419: `for item in os.listdir(telescope.path): if item.endswith(".bin"):
os.remove(...)`). -/
def purgeBins (dir : List String) : List String :=
  dir.filter (fun f => !(f.endsWith ".bin"))

/-- The campaign inputs `__run_simulation_long` closes over: the day count,
the base observation reference and store, the array-beam flag, the files the
external beam-fitting collaborator writes on day `i`
(`save_cst_file`/`fit_elements`, lines 421-430), the visibility directory
and the initial contents of the shared telescope directory. -/
structure CampaignParams where
  baseObsRef : Nat
  initHeap : Heap
  baseDate : Nat
  enableArrayBeam : Bool
  beamWrite : Nat → List String
  visDir : String
  initTelescopeDir : List String

/-- The mutable state threaded through the day loop: the shared telescope
directory, the observation store, `self.vis_path`, the accumulated
visibility paths (line 392/432), and the (date, vis_path) pair each day's
simulation call actually observes (line 439 reads `observation_run` and
`self.vis_path`). -/
structure LongState where
  telescopeDir : List String
  heap : Heap
  selfVisPath : Option String
  visFiles : List String
  simCalls : List (Nat × String)

/-- The visibility file name of day `i`: `beam_vis_` + str(i) + ".vis"
under the visibility directory (lines 393, 414, 432). -/
def dayVisPath (visDir : String) (i : Nat) : String :=
  visDir ++ "/beam_vis_" ++ toString i ++ ".vis"

/-- One iteration of the day loop (lines 401-443), day index `i` counted
from 1: purge stale `.bin` artifacts, regenerate beams if enabled, append
the day's visibility path and store it in `self.vis_path`, deep-copy the
base observation, set its date to `start + (i - 1)` days, and run the
simulation (which reads the day's observation copy and `self.vis_path`). -/
def dayStep (p : CampaignParams) (i : Nat) (st : LongState) : LongState :=
  let dir1 := purgeBins st.telescopeDir
  let dir2 := if p.enableArrayBeam then dir1 ++ p.beamWrite i else dir1
  let path := dayVisPath p.visDir i
  let copied := deepcopyObs st.heap p.baseObsRef
  let h2 := setStartDate copied.1 copied.2 (p.baseDate + (i - 1))
  { telescopeDir := dir2
    heap := h2
    selfVisPath := some path
    visFiles := st.visFiles ++ [path]
    simCalls := st.simCalls ++ [((h2.objs copied.2).startDate, path)] }

/-- State of the campaign after the first `k` days (lines 400-443): the day
loop `for i, current_date in enumerate(pd.date_range(...), 1)` runs the day
body once per day with `i` counted from 1. -/
def longStateAfter (p : CampaignParams) : Nat → LongState
  | 0 => ⟨p.initTelescopeDir, p.initHeap, none, [], []⟩
  | k + 1 => dayStep p (k + 1) (longStateAfter p k)

/-- `__run_simulation_long` over `days` days: final state; the function's
return value is its `visFiles` (line 445). -/
def runSimulationLong (p : CampaignParams) (days : Nat) : LongState :=
  longStateAfter p days

/-- The contents of the shared telescope directory at the moment day `i`'s
beam regeneration begins, i.e. right after that day's purge (between lines
419 and 421). -/
def beamRegenDir (p : CampaignParams) (i : Nat) : List String :=
  purgeBins (longStateAfter p (i - 1)).telescopeDir

/-! ### `SkyModel.add_point_sources` (sky_model.py lines 44-79) -/

/-- A cell of the sky-source array: a number or Python `None`
(the `source_id` filler). -/
inductive Cell where
  | num (x : Int)
  | null
deriving DecidableEq, Repr

/-- The argument array of `add_point_sources`: its numpy `shape` and, for
the two-dimensional case the code mutates, its rows (each of length
`shape[1]`). -/
structure NDArr where
  shape : List Nat
  data : List (List Cell)
deriving DecidableEq, Repr

/-- The Python errors `add_point_sources` can raise. -/
inductive PyErr where
  | indexError
deriving DecidableEq, Repr

/-- The `sources`/`num_sources` fields of `SkyModel`
(sky_model.py lines 39-40). -/
structure PySkyModel where
  sources : Option (List (List Cell))
  numSources : Nat
deriving DecidableEq, Repr

/-- Pad one source row of width `k < 13` to width 13: the code builds
`fill` with twelve zero columns plus a `None` column and assigns the
original row into `fill[:, :k]` (lines 70-74), so columns `k..11` stay zero
and column 12 stays `None`. -/
def padRow (k : Nat) (row : List Cell) : List Cell :=
  row ++ List.replicate (12 - k) (Cell.num 0) ++ [Cell.null]

/-- `SkyModel.add_point_sources` (sky_model.py lines 44-79).  Arrays of more
than two dimensions are silently ignored (lines 66-67); for 2-D arrays,
only a second dimension strictly between 2 and 14 is accepted (line 68) —
otherwise the function falls through and returns with the model untouched;
rows narrower than 13 are zero-padded with a `None` id column (lines
69-74); accepted rows are stacked onto the existing sources (lines 75-78)
and `num_sources` grows by `shape[0]` (line 79).  Arrays of fewer than two
dimensions hit `sources.shape[1]` and raise `IndexError`. -/
def addPointSources (m : PySkyModel) (a : NDArr) : Except PyErr PySkyModel :=
  if a.shape.length > 2 then Except.ok m
  else
    match a.shape with
    | [n, k] =>
      if 2 < k ∧ k < 14 then
        let srcs := if k < 13 then a.data.map (padRow k) else a.data
        match m.sources with
        | some prev =>
          Except.ok ⟨some (prev ++ srcs), m.numSources + n⟩
        | none =>
          Except.ok ⟨some srcs, m.numSources + n⟩
      else Except.ok m
    | _ => Except.error PyErr.indexError

/-! ### The aggregated performance report
(time_karabo_parallelization_by_channel.py lines 62-73) -/

/-- The report file name (line 67):
`output_{n_nodes}_nodes_{n_channels}_channels.txt`. -/
def reportFileName (nNodes nChannels : Nat) : String :=
  "output_" ++ toString nNodes ++ "_nodes_" ++ toString nChannels ++ "_channels.txt"

/-- The single line one run writes (lines 70-72):
`Number of channels: {n}. Time taken: {t} min.` plus a newline.  The
elapsed minutes value is kept as the already-formatted string Python
interpolates. -/
def reportLine (nChannels : Nat) (timeTaken : String) : String :=
  "Number of channels: " ++ toString nChannels ++ ". Time taken: " ++ timeTaken ++ " min.\n"

/-- The file modes `open` is called with; the report uses `"a"`. -/
inductive FileMode where
  | append
  | overwrite
deriving DecidableEq, Repr

/-- The mode the report file is opened with: `open(..., "a")` (line 68). -/
def reportOpenMode : FileMode := FileMode.append

/-- Effect of one run on the report file, modelled as the list of writes it
holds: append mode keeps the previous contents and adds the one formatted
line (lines 66-73). -/
def writeReport (prior : List String) (nChannels : Nat) (timeTaken : String) :
    List String :=
  match reportOpenMode with
  | FileMode.append => prior ++ [reportLine nChannels timeTaken]
  | FileMode.overwrite => [reportLine nChannels timeTaken]

/-! ### Concrete inputs used by the claim theorems and witnesses -/

/-- A GPU-less environment (no CUDA, no budget configured). -/
def noGpu : GpuEnv := ⟨false, 0⟩

/-- Environment for the budget-escalation claim: CUDA available,
`get_gpu_memory() = 1` MB. -/
def c1Env : GpuEnv := ⟨true, 1⟩

/-- One source row whose fixed row width (2 MiB, passed separately) exceeds
the 1 MB budget. -/
def c1Rows : List SourceRow := [⟨1, 0⟩]

/-- Ten rows with ten distinct frequencies: dense ranks 1..10. -/
def c2Rows : List SourceRow := (List.range 10).map (fun k => ⟨(k : Nat) + 1, k⟩)

/-- 100 rows whose frequencies uniformly cover ranks 1..10
(ten rows per rank), already in rank order. -/
def c5Rows : List SourceRow := (List.range 100).map (fun k => ⟨(k / 10 : Nat) + 1, k⟩)

/-- An executor where every task succeeds: item `i` yields `10 * (i+1)`. -/
def c3ExecA : Nat → Except Unit Nat := fun i => Except.ok (10 * (i + 1))

/-- A second all-success executor agreeing with `c3ExecA` on item 0 only. -/
def c3ExecB : Nat → Except Unit Nat := fun i =>
  if i = 0 then Except.ok 10 else Except.ok 99

/-- An executor whose second task fails with error 7. -/
def c4Exec : Nat → Except Nat Nat := fun i =>
  if i = 0 then Except.ok 5 else Except.error 7

/-- Three distinguishable rows for the explicit-group claims. -/
def c6Rows : List SourceRow := [⟨1, 0⟩, ⟨2, 1⟩, ⟨3, 2⟩]

/-- Two explicit index-groups (with a repeated index in the second). -/
def c6Groups : List (List Nat) := [[2, 0], [1, 1]]

/-- Concrete campaign parameters: base observation at reference 0 of a
one-cell store, array-beam mode on, the beam collaborator writing one
`.bin` file per day, a stale `.bin` already in the telescope directory. -/
def c9Params : CampaignParams :=
  { baseObsRef := 0
    initHeap := ⟨fun _ => ⟨100, 42⟩, 1⟩
    baseDate := 100
    enableArrayBeam := true
    beamWrite := fun i => ["beam" ++ toString i ++ ".bin"]
    visDir := "vis"
    initTelescopeDir := ["layout.txt", "stale.bin"] }

/-- A sky model already holding one source row. -/
def c10Model : PySkyModel := ⟨some [[Cell.num 1]], 1⟩

/-- A 3-by-2 source array: second dimension 2 is below the accepted range. -/
def c10Arr : NDArr :=
  ⟨[3, 2], [[Cell.num 1, Cell.num 2], [Cell.num 3, Cell.num 4], [Cell.num 5, Cell.num 6]]⟩

/-! ## Supporting lemmas -/

theorem sortByFreq_perm (l : List SourceRow) : (sortByFreq l).Perm l :=
  List.perm_insertionSort rowLE l

theorem sortByFreq_pairwise (l : List SourceRow) :
    List.Pairwise rowLE (sortByFreq l) :=
  List.sorted_insertionSort rowLE l

theorem freqs_pairwise (l : List SourceRow) :
    List.Pairwise (· ≤ ·) ((sortByFreq l).map (fun r => r.freq)) :=
  List.Pairwise.map _ (fun _ _ hab => hab) (sortByFreq_pairwise l)

theorem denseRankOf_mono (fs : List Int) {x y : Int} (hxy : x ≤ y) :
    denseRankOf fs x ≤ denseRankOf fs y := by
  unfold denseRankOf
  rw [← List.card_toFinset, ← List.card_toFinset]
  apply Finset.card_le_card
  intro a ha
  simp only [List.mem_toFinset, List.mem_filter, decide_eq_true_eq] at ha ⊢
  exact ⟨ha.1, le_trans ha.2 hxy⟩

theorem one_le_denseRankOf {fs : List Int} {x : Int} (hx : x ∈ fs) :
    1 ≤ denseRankOf fs x := by
  unfold denseRankOf
  have hmem : x ∈ (fs.filter (fun v => v ≤ x)).dedup := by
    simp [List.mem_dedup, List.mem_filter, hx]
  exact List.length_pos.mpr (fun hnil => by simp [hnil] at hmem)

theorem denseRanks_pairwise_of_sorted {fs : List Int}
    (h : List.Pairwise (· ≤ ·) fs) :
    List.Pairwise (· ≤ ·) (denseRanks fs) :=
  List.Pairwise.map _ (fun _ _ hab => denseRankOf_mono fs hab) h

theorem rowRanks_pairwise (rows : List SourceRow) :
    List.Pairwise (· ≤ ·) (rowRanks rows) :=
  denseRanks_pairwise_of_sorted (freqs_pairwise rows)

theorem findIdx_lt_findIdx_of_pairwise {ranks : List Nat}
    (hp : List.Pairwise (· ≤ ·) ranks) {t1 t2 j1 j2 : Nat} (ht : t1 < t2)
    (h1 : ranks.findIdx? (fun r => r = t1) = some j1)
    (h2 : ranks.findIdx? (fun r => r = t2) = some j2) : j1 < j2 := by
  obtain ⟨hl1, hq1, -⟩ := List.findIdx?_eq_some_iff_getElem.mp h1
  obtain ⟨hl2, hq2, -⟩ := List.findIdx?_eq_some_iff_getElem.mp h2
  simp only [decide_eq_true_eq] at hq1 hq2
  by_contra hcon
  push_neg at hcon
  rcases Nat.lt_or_ge j2 j1 with hlt | hge
  · have hle := List.pairwise_iff_getElem.mp hp j2 j1 hl2 hl1 hlt
    omega
  · have hj : j1 = j2 := le_antisymm hge hcon
    subst hj
    rw [hq1] at hq2
    omega

theorem findSplitIdxs_mem (ranks : List Nat) :
    ∀ (ts js : List Nat), findSplitIdxs ranks ts = some js →
      ∀ j ∈ js, ∃ t ∈ ts, ranks.findIdx? (fun r => r = t) = some j := by
  intro ts
  induction ts with
  | nil =>
    intro js h j hj
    simp only [findSplitIdxs, Option.some.injEq] at h
    subst h
    simp at hj
  | cons t ts ih =>
    intro js h j hj
    simp only [findSplitIdxs] at h
    cases hf : ranks.findIdx? (fun r => r = t) with
    | none => rw [hf] at h; simp at h
    | some j0 =>
      cases hrec : findSplitIdxs ranks ts with
      | none => rw [hf, hrec] at h; simp at h
      | some js0 =>
        rw [hf, hrec] at h
        simp only [Option.some.injEq] at h
        subst h
        rcases List.mem_cons.mp hj with rfl | hj'
        · exact ⟨t, List.mem_cons_self t ts, hf⟩
        · obtain ⟨t', ht', hft'⟩ := ih js0 hrec j hj'
          exact ⟨t', List.mem_cons_of_mem t ht', hft'⟩

theorem findSplitIdxs_pairwise {ranks : List Nat}
    (hp : List.Pairwise (· ≤ ·) ranks) :
    ∀ (ts js : List Nat), List.Pairwise (· < ·) ts →
      findSplitIdxs ranks ts = some js → List.Pairwise (· < ·) js := by
  intro ts
  induction ts with
  | nil =>
    intro js _ h
    simp only [findSplitIdxs, Option.some.injEq] at h
    subst h
    exact List.Pairwise.nil
  | cons t ts ih =>
    intro js hts h
    simp only [findSplitIdxs] at h
    cases hf : ranks.findIdx? (fun r => r = t) with
    | none => rw [hf] at h; simp at h
    | some j0 =>
      cases hrec : findSplitIdxs ranks ts with
      | none => rw [hf, hrec] at h; simp at h
      | some js0 =>
        rw [hf, hrec] at h
        simp only [Option.some.injEq] at h
        subst h
        rcases List.pairwise_cons.mp hts with ⟨hthead, htail⟩
        refine List.pairwise_cons.mpr ⟨?_, ih js0 htail hrec⟩
        intro j' hj'
        obtain ⟨t', ht', hft'⟩ := findSplitIdxs_mem ranks ts js0 hrec j' hj'
        exact findIdx_lt_findIdx_of_pairwise hp (hthead t' ht') hf hft'

theorem npSplitGo_flatten (l : List SourceRow) :
    ∀ (idxs : List Nat) (prev : Nat), List.Chain (· ≤ ·) prev idxs →
      (npSplitGo l prev idxs).flatten = l.drop prev := by
  intro idxs
  induction idxs with
  | nil => intro prev _; simp [npSplitGo]
  | cons i rest ih =>
    intro prev hch
    rcases List.chain_cons.mp hch with ⟨hpi, hrest⟩
    simp only [npSplitGo, List.flatten_cons, ih i hrest]
    have hdd : l.drop i = (l.drop prev).drop (i - prev) := by
      rw [List.drop_drop]
      congr 1
      omega
    rw [hdd, List.take_append_drop]

theorem chain_zero_of_pairwise_lt {js : List Nat}
    (h : List.Pairwise (· < ·) js) : List.Chain (· ≤ ·) 0 js := by
  cases js with
  | nil => exact List.Chain.nil
  | cons j rest =>
    refine List.Chain.cons (Nat.zero_le j) ?_
    exact List.Chain'.imp (fun a b => le_of_lt) h.chain'

theorem splitTargets_pairwise {spacing : Nat} (hs : 1 ≤ spacing) (N : Nat) :
    List.Pairwise (· < ·) (splitTargets spacing N) := by
  unfold splitTargets
  refine List.Pairwise.map _ (fun a b hab => ?_) (List.pairwise_lt_range _)
  exact mul_lt_mul_of_pos_left (by omega) (by omega)

/-! ## Claim C2 -/

/-- C2, counterexample.  The claim quantifies over every source collection
and every worker count, but for ten rows of dense ranks 1..10 and seven
workers the boundary rank `spacing * 6 = 12` occurs in no row, so
`frequencies[frequencies["rank"] == 12].index[0]` raises `IndexError`: the
split emits no chunks at all, hence no chunks whose union is the input. -/
theorem c2_boundary_rank_missing : freqSplit c2Rows 7 = none := by decide

/-- C2, amended: whenever the frequency-rank split completes without an
`IndexError` (every boundary rank `i * spacing` occurs among the dense
ranks), the emitted chunks are consecutive contiguous sub-sequences of the
rank-sorted collection — their concatenation in rank order IS the sorted
collection, so they are pairwise disjoint — and their multiset union equals
the multiset of the input collection's rows. -/
theorem c2_split_partitions (rows : List SourceRow) (N : Nat)
    (chunks : List (List SourceRow)) (h : freqSplit rows N = some chunks) :
    chunks.flatten = sortByFreq rows ∧ chunks.flatten.Perm rows := by
  have hpr := rowRanks_pairwise rows
  unfold freqSplit at h
  split at h
  · exact absurd h (by simp)
  · next R hR =>
    have hR1 : 1 ≤ R := by
      have hmem := List.mem_of_getLast?_eq_some hR
      obtain ⟨x, hx, hfx⟩ :=
        List.mem_map.mp (by simpa [rowRanks, denseRanks] using hmem)
      exact hfx ▸
        one_le_denseRankOf (List.mem_map_of_mem (fun r => r.freq) hx)
    split at h
    · exact absurd h (by simp)
    · next idxs hidx =>
      simp only [Option.some.injEq] at h
      subst h
      have htp : List.Pairwise (· < ·) (splitTargets (npCeilDiv R N) N) := by
        cases N with
        | zero =>
          simp only [splitTargets, Nat.zero_sub, List.range_zero, List.map_nil]
          exact List.Pairwise.nil
        | succ n =>
          apply splitTargets_pairwise _ (n + 1)
          unfold npCeilDiv
          rw [Nat.one_le_div_iff (by omega)]
          omega
      have hpw : List.Pairwise (· < ·) idxs :=
        findSplitIdxs_pairwise hpr _ idxs htp hidx
      have hflat : (npSplit (sortByFreq rows) idxs).flatten = sortByFreq rows := by
        have hgo := npSplitGo_flatten (sortByFreq rows) idxs 0
          (chain_zero_of_pairwise_lt hpw)
        simpa [npSplit] using hgo
      exact ⟨hflat, by rw [hflat]; exact sortByFreq_perm rows⟩

/-- Witness for C2: the amended theorem applied to the ten-rank collection
with six workers, where the split succeeds. -/
theorem c2_split_partitions_witness :
    (([[⟨1, 0⟩], [⟨2, 1⟩, ⟨3, 2⟩], [⟨4, 3⟩, ⟨5, 4⟩], [⟨6, 5⟩, ⟨7, 6⟩],
      [⟨8, 7⟩, ⟨9, 8⟩], [⟨10, 9⟩]] : List (List SourceRow)).flatten
        = sortByFreq c2Rows) ∧
    (([[⟨1, 0⟩], [⟨2, 1⟩, ⟨3, 2⟩], [⟨4, 3⟩, ⟨5, 4⟩], [⟨6, 5⟩, ⟨7, 6⟩],
      [⟨8, 7⟩, ⟨9, 8⟩], [⟨10, 9⟩]] : List (List SourceRow)).flatten.Perm c2Rows) :=
  c2_split_partitions c2Rows 6 _ (by decide)

/-! ## Claim C1 -/

theorem pyBoolToInt_le_one (b : Bool) : pyBoolToInt b ≤ 1 := by
  cases b <;> simp [pyBoolToInt]

theorem escalationCheck_never_continues (env : GpuEnv) (cfg m : ℚ) :
    (escalationCheck env cfg m).1 = false := by
  unfold escalationCheck pyBoolToInt
  by_cases hm : m > cfg * env.gpuMemory <;> simp [hm]

/-- With the check never requesting another iteration, one unit of fuel
suffices: the loop is a single split at the initial `N`. -/
theorem splitEscalationLoop_single_pass (env : GpuEnv) (cfg : ℚ)
    (rb : Nat) (rows : List SourceRow) (fuel N : Nat) :
    splitEscalationLoop env cfg rb rows (fuel + 1) N =
      (freqSplit rows N).map (fun cs => (cs, N)) := by
  unfold splitEscalationLoop
  cases h : freqSplit rows N with
  | none => rfl
  | some chunks =>
    simp [escalationCheck_never_continues env cfg
      (firstChunkMB chunks rb)]

/-- C1, code bug.  The source computes `ratio_vram_usage` as the *Boolean*
`split_array_sky[0].nbytes / 1024**2 > max_vram_usage_gpu` and then tests
`ratio_vram_usage > 1`, which is never true since `int(True) = 1`; so the
loop never escalates `N` — contradicting the adjacent comments ("If that is
the case, increase the number of splits") and the claim.  Here, with CUDA
available, a budget of `1 * 1` MB and a single 2 MiB row, the loop exits on
its very first iteration at `N = 1` even though the first chunk (2 MB)
exceeds the budget; in general the escalation check can never request
another iteration. -/
theorem c1_escalation_never_fires :
    splitEscalationLoop c1Env 1 2097152 c1Rows 9 1 = some ([c1Rows], 1) ∧
    firstChunkMB [c1Rows] 2097152 > 1 * c1Env.gpuMemory ∧
    (∀ (env : GpuEnv) (cfg m : ℚ), (escalationCheck env cfg m).1 = false) := by
  refine ⟨?_, ?_, fun env cfg m => escalationCheck_never_continues env cfg m⟩
  · rw [show (9 : Nat) = 8 + 1 from rfl, splitEscalationLoop_single_pass]
    have hfs : freqSplit c1Rows 1 = some [c1Rows] := by decide
    rw [hfs]
    rfl
  · show (1 * 2097152 : Nat) / ((1024 : ℚ) ^ 2) > 1 * c1Env.gpuMemory
    norm_num [c1Env]

/-! ## Claim C5 -/

set_option maxRecDepth 100000 in
/-- C5, counterexample.  For the 100-row collection covering ranks 1..10
with four workers and no memory budget, the emitted chunk sizes are
20, 30, 30, 20 — not 25 each as the claim states (the spacing-3 boundaries
sit at ranks 3, 6, 9, not 3, 5, 8). -/
theorem c5_chunks_not_25_each :
    (chooseSplit c5Rows none "frequency" noGpu 0 8 4 1).map
      (fun cs => cs.map List.length) ≠ some [25, 25, 25, 25] := by decide

set_option maxRecDepth 100000 in
/-- C5, amended: the same scenario produces exactly 4 chunks, in rank
order, of sizes 20, 30, 30, 20, covering the rank (= frequency) intervals
[1,3), [3,6), [6,9) and [9,11), and concatenating back to the collection. -/
theorem c5_scenario_chunks :
    chooseSplit c5Rows none "frequency" noGpu 0 8 4 1 =
      some [c5Rows.take 20, (c5Rows.drop 20).take 30, (c5Rows.drop 50).take 30,
        c5Rows.drop 80] ∧
    (c5Rows.take 20).length = 20 ∧ ((c5Rows.drop 20).take 30).length = 30 ∧
    ((c5Rows.drop 50).take 30).length = 30 ∧ (c5Rows.drop 80).length = 20 ∧
    (∀ r ∈ c5Rows.take 20, 1 ≤ r.freq ∧ r.freq < 3) ∧
    (∀ r ∈ (c5Rows.drop 20).take 30, 3 ≤ r.freq ∧ r.freq < 6) ∧
    (∀ r ∈ (c5Rows.drop 50).take 30, 6 ≤ r.freq ∧ r.freq < 9) ∧
    (∀ r ∈ c5Rows.drop 80, 9 ≤ r.freq ∧ r.freq < 11) ∧
    c5Rows.take 20 ++ ((c5Rows.drop 20).take 30 ++
      ((c5Rows.drop 50).take 30 ++ c5Rows.drop 80)) = c5Rows := by decide

/-! ## Claim C6 -/

/-- C6, counterexample.  An explicitly supplied *empty* group list is falsy
in Python (`if self.split_idxs_per_group:`), so it is not used verbatim:
the code falls through to the frequency split and returns one chunk holding
the whole collection instead of the zero chunks the groups describe. -/
theorem c6_empty_groups_fall_through :
    chooseSplit c6Rows (some []) "frequency" noGpu 0 8 1 1 = some [c6Rows] ∧
    some [c6Rows] ≠ some ([] : List (List SourceRow)) := by decide

theorem mapM_getElem_of_bounds (rows : List SourceRow) :
    ∀ (g : List Nat), (∀ i ∈ g, i < rows.length) →
      g.mapM (fun i => rows[i]?) =
        some (g.map (fun i => rows.getD i default)) := by
  intro g
  induction g with
  | nil => intro _; rfl
  | cons i g ih =>
    intro hb
    have hi : i < rows.length := hb i (List.mem_cons_self i g)
    have hg := ih (fun j hj => hb j (List.mem_cons_of_mem i hj))
    simp only [List.mapM_cons, hg, List.map_cons, List.getElem?_eq_getElem hi,
      List.getD_eq_getElem?_getD, Option.bind_eq_bind, Option.some_bind]
    rfl

theorem npTake_of_bounds (rows : List SourceRow) :
    ∀ (idxss : List (List Nat)), (∀ g ∈ idxss, ∀ i ∈ g, i < rows.length) →
      idxss.mapM (fun g => g.mapM (fun i => rows[i]?)) =
        some (idxss.map (fun g => g.map (fun i => rows.getD i default))) := by
  intro idxss
  induction idxss with
  | nil => intro _; rfl
  | cons g gs ih =>
    intro hb
    simp only [List.mapM_cons,
      mapM_getElem_of_bounds rows g (hb g (List.mem_cons_self g gs)),
      ih (fun g' hg' => hb g' (List.mem_cons_of_mem g hg')),
      Option.bind_eq_bind, Option.some_bind, List.map_cons]
    rfl

/-- C6, amended: a *non-empty* explicit index-group list (the empty list is
falsy and treated as absent) whose groups are rectangular and in bounds is
used verbatim — no rank rebalancing, no budget escalation: chunk `g` is
exactly the collection's rows at the indices of group `g`. -/
theorem c6_explicit_groups_verbatim (rows : List SourceRow) (g0 : List Nat)
    (gs : List (List Nat)) (sb : String) (env : GpuEnv) (cfg : ℚ)
    (rb N fuel : Nat)
    (hrect : ∀ g ∈ (g0 :: gs), g.length = g0.length)
    (hbound : ∀ g ∈ (g0 :: gs), ∀ i ∈ g, i < rows.length) :
    chooseSplit rows (some (g0 :: gs)) sb env cfg rb N fuel =
      some ((g0 :: gs).map (fun g => g.map (fun i => rows.getD i default))) := by
  show npTake rows (g0 :: gs) = _
  unfold npTake
  rw [if_pos, npTake_of_bounds rows (g0 :: gs) hbound]
  exact List.all_eq_true.mpr (fun g hg => decide_eq_true (hrect g hg))

/-- Witness for C6: two groups over three rows, chunk contents are the rows
at the groups' indices. -/
theorem c6_explicit_groups_verbatim_witness :
    chooseSplit c6Rows (some c6Groups) "frequency" noGpu 0 8 1 1 =
      some (c6Groups.map (fun g => g.map (fun i => c6Rows.getD i default))) :=
  c6_explicit_groups_verbatim c6Rows [2, 0] [[1, 1]] "frequency" noGpu 0 8 1 1
    (by decide) (by decide)

/-! ## Claim C3 -/

/-- C3, counterexample.  Two all-success executors that agree on the first
item but differ on the second produce the *same* call result: the call
returns `Visibility(results[0])` only (the code's own TODO comment records
this), never "the list of all results" the claim states — the second task's
result is not part of the returned value at all. -/
theorem c3_only_first_result_surfaces :
    setupRunDask c3ExecA [0, 1] = DaskOutcome.ok 10 ∧
    setupRunDask c3ExecB [0, 1] = DaskOutcome.ok 10 ∧
    c3ExecA 1 = Except.ok 20 ∧ c3ExecB 1 = Except.ok 99 :=
  ⟨rfl, rfl, rfl, rfl⟩

theorem clientGather_all_ok {ι ε ρ : Type} (exec : ι → Except ε ρ) (f : ι → ρ) :
    ∀ (items : List ι), (∀ i ∈ items, exec i = Except.ok (f i)) →
      clientGather exec items = Except.ok (items.map f) := by
  intro items
  induction items with
  | nil => intro _; rfl
  | cons x xs ih =>
    intro h
    have hx := h x (List.mem_cons_self x xs)
    have hxs := ih (fun i hi => h i (List.mem_cons_of_mem x hi))
    simp [clientGather, hx, hxs]

/-- C3, amended: when every task succeeds, the internal gather indeed
produces one result per submitted item in exactly submission order; the
call itself, however, then returns only the FIRST of those results (wrapped
in a `Visibility`), not the list. -/
theorem c3_gather_ordered_first_returned {ι ε ρ : Type} (exec : ι → Except ε ρ)
    (f : ι → ρ) (items : List ι)
    (hok : ∀ i ∈ items, exec i = Except.ok (f i)) :
    clientGather exec items = Except.ok (items.map f) ∧
    setupRunDask exec items =
      (match (items.map f).head? with
        | some r => DaskOutcome.ok r
        | none => DaskOutcome.indexError) := by
  have hg := clientGather_all_ok exec f items hok
  refine ⟨hg, ?_⟩
  unfold setupRunDask
  rw [hg]

/-- Witness for C3: two items, gather returns both results in order and
the call returns the first. -/
theorem c3_gather_ordered_first_returned_witness :
    clientGather c3ExecA [0, 1] =
      Except.ok ([0, 1].map (fun i => 10 * (i + 1))) ∧
    setupRunDask c3ExecA [0, 1] =
      (match ([0, 1].map (fun i => 10 * (i + 1))).head? with
        | some r => DaskOutcome.ok r
        | none => DaskOutcome.indexError) :=
  c3_gather_ordered_first_returned c3ExecA (fun i => 10 * (i + 1)) [0, 1]
    (fun _ _ => rfl)

/-! ## Claim C4 -/

theorem clientGather_error_of_fail {ι ε ρ : Type} (exec : ι → Except ε ρ) :
    ∀ (items : List ι), (∃ i ∈ items, ∃ e, exec i = Except.error e) →
      ∃ e, clientGather exec items = Except.error e ∧
        ∃ i ∈ items, exec i = Except.error e := by
  intro items
  induction items with
  | nil =>
    rintro ⟨i, hi, -⟩
    simp at hi
  | cons x xs ih =>
    rintro ⟨i, hi, e, he⟩
    cases hx : exec x with
    | error ex =>
      exact ⟨ex, by simp [clientGather, hx],
        x, List.mem_cons_self x xs, hx⟩
    | ok r =>
      have hixs : i ∈ xs := by
        rcases List.mem_cons.mp hi with rfl | hmem
        · rw [hx] at he; cases he
        · exact hmem
      obtain ⟨e', hg, i', hi', he'⟩ := ih ⟨i, hixs, e, he⟩
      refine ⟨e', ?_, i', List.mem_cons_of_mem x hi', he'⟩
      simp [clientGather, hx, hg]

/-- C4, confirmed: if any submitted task fails, the gather raises instead
of returning, so the whole call surfaces a failing task's error and no
result — in particular no partial list of completed sibling results. -/
theorem c4_dispatch_atomic_failure {ι ε ρ : Type} (exec : ι → Except ε ρ)
    (items : List ι) (hfail : ∃ i ∈ items, ∃ e, exec i = Except.error e) :
    ∃ e, setupRunDask exec items = DaskOutcome.taskFailed e ∧
      ∃ i ∈ items, exec i = Except.error e := by
  obtain ⟨e, hg, i, hi, he⟩ := clientGather_error_of_fail exec items hfail
  exact ⟨e, by unfold setupRunDask; rw [hg], i, hi, he⟩

/-- Witness for C4: a two-item dispatch whose second task fails. -/
theorem c4_dispatch_atomic_failure_witness :
    ∃ e, setupRunDask c4Exec [0, 1] = DaskOutcome.taskFailed e ∧
      ∃ i ∈ [0, 1], c4Exec i = Except.error e :=
  c4_dispatch_atomic_failure c4Exec [0, 1] ⟨1, by decide, 7, rfl⟩

/-! ## Claim C7 -/

theorem purgeBins_no_bin (dir : List String) :
    ∀ f ∈ purgeBins dir, f.endsWith ".bin" = false := by
  intro f hf
  rcases List.mem_filter.mp hf with ⟨-, hb⟩
  simpa using hb

theorem longStateAfter_visFiles (p : CampaignParams) :
    ∀ k, (longStateAfter p k).visFiles =
      (List.range k).map (fun j => dayVisPath p.visDir (j + 1)) := by
  intro k
  induction k with
  | zero => rfl
  | succ k ih =>
    show (dayStep p (k + 1) (longStateAfter p k)).visFiles = _
    simp [dayStep, ih, List.range_succ]

/-- C7, confirmed.  A three-day campaign in which every step succeeds
returns exactly three artifact paths named with the strictly increasing day
counter 1, 2, 3 under the fixed prefix (generally, `days` paths for `days`
days), and at the moment any day's beam regeneration begins the shared
telescope directory holds no `.bin` derived-beam artifact: the purge step
has removed every one left by the previous day. -/
theorem c7_campaign_three_days (p : CampaignParams) :
    (runSimulationLong p 3).visFiles =
      [dayVisPath p.visDir 1, dayVisPath p.visDir 2, dayVisPath p.visDir 3] ∧
    (∀ days, (runSimulationLong p days).visFiles.length = days) ∧
    (∀ i, ∀ f ∈ beamRegenDir p i, f.endsWith ".bin" = false) := by
  refine ⟨?_, ?_, ?_⟩
  · exact (longStateAfter_visFiles p 3).trans rfl
  · intro days
    show (longStateAfter p days).visFiles.length = days
    rw [longStateAfter_visFiles p days]
    simp
  · intro i f hf
    exact purgeBins_no_bin _ f hf

/-! ## Claim C9 -/

theorem longStateAfter_heap_spec (p : CampaignParams)
    (hb : p.baseObsRef < p.initHeap.fresh) :
    ∀ k, (longStateAfter p k).heap.objs p.baseObsRef =
        p.initHeap.objs p.baseObsRef ∧
      p.baseObsRef < (longStateAfter p k).heap.fresh ∧
      (longStateAfter p k).simCalls =
        (List.range k).map
          (fun j => (p.baseDate + j, dayVisPath p.visDir (j + 1))) := by
  intro k
  induction k with
  | zero => exact ⟨rfl, hb, rfl⟩
  | succ k ih =>
    obtain ⟨h1, h2, h3⟩ := ih
    refine ⟨?_, ?_, ?_⟩
    · show (dayStep p (k + 1) (longStateAfter p k)).heap.objs p.baseObsRef = _
      simp only [dayStep, deepcopyObs, setStartDate]
      rw [Function.update_noteq (by omega), Function.update_noteq (by omega)]
      exact h1
    · show p.baseObsRef < (dayStep p (k + 1) (longStateAfter p k)).heap.fresh
      simp only [dayStep, deepcopyObs, setStartDate]
      omega
    · show (dayStep p (k + 1) (longStateAfter p k)).simCalls = _
      simp only [dayStep, deepcopyObs, setStartDate, h3]
      rw [Function.update_same]
      simp [List.range_succ]

/-- C9, confirmed.  Each day's simulation is invoked on a fresh deep copy
of the base observation carrying that day's own calendar date, with
`self.vis_path` set to that day's own output path just before the call: the
recorded per-day invocation list is exactly `(base date + (i-1), path i)`
for day `i`, so no day observes an earlier day's transformed settings, and
the base observation cell is unchanged after any number of days. -/
theorem c9_day_settings_isolated (p : CampaignParams) (days : Nat)
    (hb : p.baseObsRef < p.initHeap.fresh) :
    (runSimulationLong p days).heap.objs p.baseObsRef =
      p.initHeap.objs p.baseObsRef ∧
    (runSimulationLong p days).simCalls =
      (List.range days).map
        (fun j => (p.baseDate + j, dayVisPath p.visDir (j + 1))) := by
  obtain ⟨h1, -, h3⟩ := longStateAfter_heap_spec p hb days
  exact ⟨h1, h3⟩

/-- Witness for C9: a two-day campaign over a concrete store. -/
theorem c9_day_settings_isolated_witness :
    (runSimulationLong c9Params 2).heap.objs c9Params.baseObsRef =
      c9Params.initHeap.objs c9Params.baseObsRef ∧
    (runSimulationLong c9Params 2).simCalls =
      (List.range 2).map
        (fun j => (c9Params.baseDate + j, dayVisPath c9Params.visDir (j + 1))) :=
  c9_day_settings_isolated c9Params 2 (by decide)

/-! ## Claim C8 -/

/-- C8, counterexample.  The report file name says `_channels`, not
`_items`, and the written line says `Number of channels:`, not
`Number of items:`. -/
theorem c8_report_says_channels_not_items :
    reportFileName 2 3 ≠ "output_2_nodes_3_items.txt" ∧
    reportLine 3 "1.5" ≠ "Number of items: 3. Time taken: 1.5 min.\n" := by
  constructor <;> decide

/-- C8, amended: the report file is named
`output_{workerCount}_nodes_{itemCount}_channels.txt`, opened in append
mode (prior contents preserved, never overwritten), and receives exactly
one line `Number of channels: {n}. Time taken: {minutes} min.` per run. -/
theorem c8_report_append_one_line (prior : List String) (w n : Nat) (t : String) :
    reportOpenMode = FileMode.append ∧
    writeReport prior n t = prior ++ [reportLine n t] ∧
    reportFileName w n =
      "output_" ++ toString w ++ "_nodes_" ++ toString n ++ "_channels.txt" ∧
    reportLine n t =
      "Number of channels: " ++ toString n ++ ". Time taken: " ++ t ++ " min.\n" :=
  ⟨rfl, rfl, rfl, rfl⟩

/-! ## Claim C10 -/

/-- C10, confirmed.  For every model and every array whose shape is invalid
in the claim's sense — more than two dimensions, or a two-dimensional shape
whose second dimension is at most 2 or at least 14 — `add_point_sources`
returns normally with the model untouched: `sources` and `num_sources`
keep their previous values, and no error is raised. -/
theorem c10_invalid_shape_silently_ignored (m : PySkyModel) (a : NDArr)
    (h : a.shape.length > 2 ∨
      (a.shape.length = 2 ∧ (a.shape.getD 1 0 ≤ 2 ∨ 14 ≤ a.shape.getD 1 0))) :
    addPointSources m a = Except.ok m := by
  unfold addPointSources
  rcases h with hgt | ⟨hlen, hk⟩
  · rw [if_pos hgt]
  · cases hsh : a.shape with
    | nil => rw [hsh] at hlen; simp at hlen
    | cons n rest =>
      cases rest with
      | nil => rw [hsh] at hlen; simp at hlen
      | cons k rest2 =>
        cases rest2 with
        | cons z rest3 => rw [hsh] at hlen; simp at hlen
        | nil =>
          rw [if_neg (by simp)]
          have hk' : ¬(2 < k ∧ k < 14) := by
            rw [hsh] at hk
            simp [List.getD] at hk
            omega
          simp [hk']

/-- Witness for C10: a 3-by-2 array (second dimension 2) is silently
ignored by a model already holding one source. -/
theorem c10_invalid_shape_silently_ignored_witness :
    addPointSources c10Model c10Arr = Except.ok c10Model :=
  c10_invalid_shape_silently_ignored c10Model c10Arr
    (Or.inr ⟨rfl, Or.inl (by decide)⟩)

end Karabo
